import Mathlib

/-!
Verification of `src/main.c` of explorer_board_wifi_test.

A shallow embedding of the application code of the XMOS explorer board Wi-Fi
test (`src/main.c`, `src/app_conf.h`) and theorems about it.

Modelling conventions.

* A C string is modelled by the Lean `String` of its characters up to (not
  including) the terminating NUL, so `s[0] != 0` is `s ≠ ""`.
* `rtos_printf` is a library routine.  Every call is recorded, in program
  order, as a `PrintfCall` (format string and the list of variadic arguments);
  `render` gives the text a C `printf` produces for such a call.
* `_Exit` ends the process: the rest of the calling function is not run.  The
  `Prog` monad carries this, so the callback is translated line by line
  including the statements that follow `_Exit(0)`.
* The numeric values of the macros and enumerators of the Wi-Fi library
  headers (`wifi.h`, `sl_wfx_iot_wifi.h`) are not part of this repository; they
  are a parameter (`LibConsts`).
* The tasks of the bring-up code are sequences of instructions; the scheduler
  is any interleaving of the created tasks.
-/

namespace WifiTest

/-! ## `rtos_printf` -/

/-- One variadic argument of an `rtos_printf` call. -/
inductive Arg
  | int (v : Int)
  | str (s : String)
  deriving DecidableEq, Repr

/-- A recorded call `rtos_printf(fmt, args...)`. -/
structure PrintfCall where
  fmt : String
  args : List Arg
  deriving DecidableEq, Repr

/-- State of the format scanner: copying text, or inside a conversion
specification after `%` (zero flag, field width read so far). -/
inductive FmtState
  | text
  | spec (zero : Bool) (width : Nat)
  deriving DecidableEq, Repr

/-- Left padding of a converted value to the field width. -/
def padLeft (zero : Bool) (width : Nat) (ds : List Char) : List Char :=
  List.replicate (width - ds.length) (if zero then '0' else ' ') ++ ds

/-- Digits of the conversion `conv` applied to an argument: `%d` signed decimal,
`%x` the value converted to `unsigned int` (32 bit) in lower-case hexadecimal,
`%s` the characters of the string. -/
def convert (conv : Char) (a : Arg) : List Char :=
  match a with
  | .int v =>
    if conv = 'x' then Nat.toDigits 16 (v % 4294967296).toNat
    else if v < 0 then '-' :: Nat.toDigits 10 v.natAbs
    else Nat.toDigits 10 v.toNat
  | .str s => s.data

/-- The characters written by `printf` for a format and an argument list, for
the conversion specifications that `main.c` uses: an optional `0` flag, an
optional field width and one of the conversions `d`, `x`, `s` (and `%%` for a
percent sign).  Conversion specifications consume the arguments from left to
right; arguments left over when the format is exhausted are ignored. -/
def vformat : FmtState → List Char → List Arg → List Char
  | _, [], _ => []
  | .text, c :: cs, args =>
    if c = '%' then vformat (.spec false 0) cs args
    else c :: vformat .text cs args
  | .spec z w, c :: cs, args =>
    if c = '%' then '%' :: vformat .text cs args
    else if c = '0' ∧ w = 0 then vformat (.spec true 0) cs args
    else if c.isDigit then vformat (.spec z (10 * w + (c.toNat - 48))) cs args
    else
      match args with
      | [] => []
      | a :: rest => padLeft z w (convert c a) ++ vformat .text cs rest

/-- Text produced by a recorded `rtos_printf` call. -/
def render (p : PrintfCall) : String :=
  String.mk (vformat .text p.fmt.data p.args)

/-- The arguments consumed by the conversion specifications of a format, in
order, each with its conversion character. -/
def fields : FmtState → List Char → List Arg → List (Char × Arg)
  | _, [], _ => []
  | .text, c :: cs, args =>
    if c = '%' then fields (.spec false 0) cs args else fields .text cs args
  | .spec z w, c :: cs, args =>
    if c = '%' then fields .text cs args
    else if c = '0' ∧ w = 0 then fields (.spec true 0) cs args
    else if c.isDigit then fields (.spec z (10 * w + (c.toNat - 48))) cs args
    else
      match args with
      | [] => []
      | a :: rest => (c, a) :: fields .text cs rest

/-- Number of conversion specifications of a format string. -/
def countConversions : FmtState → List Char → Nat
  | _, [] => 0
  | .text, c :: cs =>
    if c = '%' then countConversions (.spec false 0) cs else countConversions .text cs
  | .spec z w, c :: cs =>
    if c = '%' then countConversions .text cs
    else if c = '0' ∧ w = 0 then countConversions (.spec true 0) cs
    else if c.isDigit then countConversions (.spec z (10 * w + (c.toNat - 48))) cs
    else 1 + countConversions .text cs

/-! ## Library constants -/

/-- Values of the macros and enumerators used by `main.c` whose definitions are
in library headers outside this repository. -/
structure LibConsts where
  WIFI_CONN_MGR_EVENT_STARTUP : Int
  WIFI_CONN_MGR_EVENT_CONNECT_FAILED : Int
  WIFI_CONN_MGR_EVENT_CONNECTED : Int
  WIFI_CONN_MGR_EVENT_DISCONNECTED : Int
  WIFI_CONN_MGR_EVENT_SOFT_AP_STARTED : Int
  WIFI_CONN_MGR_EVENT_SOFT_AP_STOPPED : Int
  WIFI_CONN_MGR_MODE_STATION : Int
  WIFI_CONN_MGR_MODE_SOFT_AP : Int
  eWiFiSuccess : Int
  eWiFiSecurityOpen : Int
  eWiFiSecurityWEP : Int
  deriving DecidableEq, Repr

/-- The six event macros, in the order of the `case` labels of the callback. -/
def LibConsts.events (k : LibConsts) : List Int :=
  [k.WIFI_CONN_MGR_EVENT_STARTUP, k.WIFI_CONN_MGR_EVENT_CONNECT_FAILED,
   k.WIFI_CONN_MGR_EVENT_CONNECTED, k.WIFI_CONN_MGR_EVENT_DISCONNECTED,
   k.WIFI_CONN_MGR_EVENT_SOFT_AP_STARTED, k.WIFI_CONN_MGR_EVENT_SOFT_AP_STOPPED]

/-- The `case` labels of a C `switch` are pairwise different (a translation
unit with two equal labels does not compile). -/
def LibConsts.distinct (k : LibConsts) : Prop := k.events.Nodup

instance (k : LibConsts) : Decidable k.distinct :=
  inferInstanceAs (Decidable k.events.Nodup)

/-- A concrete assignment of the library constants (events 0..5, station 0,
soft AP 1, success 0, open 0, WEP 1). -/
def sampleConsts : LibConsts :=
  { WIFI_CONN_MGR_EVENT_STARTUP := 0
    WIFI_CONN_MGR_EVENT_CONNECT_FAILED := 1
    WIFI_CONN_MGR_EVENT_CONNECTED := 2
    WIFI_CONN_MGR_EVENT_DISCONNECTED := 3
    WIFI_CONN_MGR_EVENT_SOFT_AP_STARTED := 4
    WIFI_CONN_MGR_EVENT_SOFT_AP_STOPPED := 5
    WIFI_CONN_MGR_MODE_STATION := 0
    WIFI_CONN_MGR_MODE_SOFT_AP := 1
    eWiFiSuccess := 0
    eWiFiSecurityOpen := 0
    eWiFiSecurityWEP := 1 }

/-! ## `app_conf.h` -/

def appconfSOFT_AP_SSID : String := "xcore.ai"

def appconfSOFT_AP_PASSWORD : String := "xmos"

/-! ## Execution of callback code -/

/-- What the callback can see and change: the two caller-owned string buffers
and the sequence of `rtos_printf` calls made so far. -/
structure World where
  ssid : String
  password : String
  out : List PrintfCall
  deriving DecidableEq, Repr

/-- Reasons for which the model stops an execution that C leaves undefined or
that the model cannot follow. -/
inductive Fault
  | outOfBounds
  | outOfFuel
  deriving DecidableEq, Repr

/-- Ways in which a piece of code can end. -/
inductive Result (α : Type)
  | ret (a : α) (w : World)
  | exited (status : Int) (w : World)
  | fault (f : Fault) (w : World)
  deriving DecidableEq, Repr

/-- Code acting on the world. -/
def Prog (α : Type) : Type := World → Result α

/-- Sequencing: the second part runs only when the first one ends normally. -/
def Prog.bind {α β : Type} (m : Prog α) (f : α → Prog β) : Prog β :=
  fun w =>
    match m w with
    | .ret a w1 => f a w1
    | .exited s w1 => .exited s w1
    | .fault e w1 => .fault e w1

instance : Monad Prog where
  pure a := fun w => .ret a w
  bind := Prog.bind

/-- The call `rtos_printf(fmt, args...)`. -/
def rtos_printf (fmt : String) (args : List Arg) : Prog Unit :=
  fun w => .ret () { w with out := w.out ++ [⟨fmt, args⟩] }

/-- The call `_Exit(status)`: the process ends, nothing after it is executed. -/
def _Exit (status : Int) : Prog Unit :=
  fun w => .exited status w

/-- Stop with a fault. -/
def Prog.stop {α : Type} (f : Fault) : Prog α :=
  fun w => .fault f w

/-- The call `strcpy(ssid, src)` on the caller's ssid buffer. -/
def strcpy_ssid (src : String) : Prog Unit :=
  fun w => .ret () { w with ssid := src }

/-- The call `strcpy(password, src)` on the caller's password buffer. -/
def strcpy_password (src : String) : Prog Unit :=
  fun w => .ret () { w with password := src }

/-- Read the caller's ssid buffer. -/
def get_ssid : Prog String :=
  fun w => .ret w.ssid w

/-- The function `strlen`. -/
def strlen (s : String) : Nat := s.length

/-! ## `scan` -/

/-- Modelled from the spec: the macro `wificonfigMAX_BSSID_LEN` of the Wi-Fi
library configuration, which is not under `src/`.  A BSSID has six bytes, the
ones that `HWADDR_ARG` reads at the indices 0..5. -/
def wificonfigMAX_BSSID_LEN : Nat := 6

/-- The array `uint8_t ucBSSID[wificonfigMAX_BSSID_LEN]`. -/
structure BSSID where
  b0 : Nat
  b1 : Nat
  b2 : Nat
  b3 : Nat
  b4 : Nat
  b5 : Nat
  deriving DecidableEq, Repr

/-- The bytes of the array in memory order. -/
def BSSID.bytes (b : BSSID) : List Nat := [b.b0, b.b1, b.b2, b.b3, b.b4, b.b5]

/-- The fields of `WIFIScanResult_t` that `scan` reads. -/
structure WIFIScanResult_t where
  cSSID : String
  ucBSSID : BSSID
  xSecurity : Int
  cRSSI : Int
  cChannel : Int
  deriving DecidableEq, Repr

/-- The function `memcmp` on the first `n` bytes of two byte sequences. -/
def memcmp : List Nat → List Nat → Nat → Int
  | a :: as, b :: bs, n + 1 =>
    if a < b then -1 else if b < a then 1 else memcmp as bs n
  | _, _, _ => 0

/-- The local array `uint8_t no_bssid[wificonfigMAX_BSSID_LEN] = {0}`. -/
def no_bssid : List Nat := List.replicate wificonfigMAX_BSSID_LEN 0

/-- The macro `HWADDR_FMT`. -/
def HWADDR_FMT : String := "%02x:%02x:%02x:%02x:%02x:%02x"

/-- The macro `HWADDR_ARG(hwaddr)`. -/
def HWADDR_ARG (hwaddr : BSSID) : List Arg :=
  [.int hwaddr.b0, .int hwaddr.b1, .int hwaddr.b2, .int hwaddr.b3, .int hwaddr.b4,
   .int hwaddr.b5]

/-- The six `rtos_printf` calls of one iteration of the loop of `scan`, for the
loop counter `i` and the entry `scan_result` points to. -/
def scan_print (k : LibConsts) (i : Nat) (scan_result : WIFIScanResult_t) : Prog Unit := do
  rtos_printf "Scan result %d:\n" [.int i]
  rtos_printf ("\tBSSID: " ++ HWADDR_FMT ++ "\n") (.int i :: HWADDR_ARG scan_result.ucBSSID)
  rtos_printf "\tSSID: %s\n" [.str scan_result.cSSID]
  rtos_printf "\tSecurity: %s dBm\n"
    [.str (if scan_result.xSecurity = k.eWiFiSecurityOpen then "open"
           else if scan_result.xSecurity = k.eWiFiSecurityWEP then "WEP" else "WPA")]
  rtos_printf "\tChannel: %d\n" [.int scan_result.cChannel]
  rtos_printf "\tStrength: %d dBm\n\n" [.int scan_result.cRSSI]

/-- The loop `for (int i = 0; i < 10; i++)` of `scan`, entered with counter `i`
(`scan_result` points to entry `i` of the buffer).  Reading an entry outside
the buffer is a fault.  `fuel` bounds the number of evaluations of the loop
condition. -/
def scan_loop (k : LibConsts) (scan_results : List WIFIScanResult_t) :
    Nat → Nat → Prog Unit
  | 0, _ => Prog.stop .outOfFuel
  | fuel + 1, i =>
    if i < 10 then
      match scan_results.get? i with
      | none => Prog.stop .outOfBounds
      | some scan_result =>
        if memcmp scan_result.ucBSSID.bytes no_bssid wificonfigMAX_BSSID_LEN = 0 then
          pure ()
        else do
          scan_print k i scan_result
          scan_loop k scan_results fuel (i + 1)
    else pure ()

/-- What the library call `WIFI_Scan(scan_results, 10)` does: the code it
returns and the contents it leaves in the buffer. -/
structure ScanOutcome where
  code : Int
  scan_results : List WIFIScanResult_t
  deriving DecidableEq, Repr

/-- The function `scan`. -/
def scan (k : LibConsts) (WIFI_Scan : ScanOutcome) : Prog Unit :=
  if WIFI_Scan.code = k.eWiFiSuccess then
    scan_loop k WIFI_Scan.scan_results 11 0
  else pure ()

/-! ## `wifi_conn_mgr_event_cb` -/

/-- The function `wifi_conn_mgr_event_cb(event, ssid, password)`; the `switch`
is the chain of comparisons with its `case` labels in source order. -/
def wifi_conn_mgr_event_cb (k : LibConsts) (WIFI_Scan : ScanOutcome) (event : Int) :
    Prog Int :=
  if event = k.WIFI_CONN_MGR_EVENT_STARTUP then do
    rtos_printf "Directing WiFi manager to go into station mode\n" []
    pure k.WIFI_CONN_MGR_MODE_STATION
  else if event = k.WIFI_CONN_MGR_EVENT_CONNECT_FAILED then do
    scan k WIFI_Scan
    rtos_printf "Scan complete.  Program exitting now...\n" []
    _Exit 0
    rtos_printf "Directing WiFi manager to start a soft AP\n" []
    rtos_printf "\tSSID is %s\n" [.str appconfSOFT_AP_SSID]
    if strlen appconfSOFT_AP_PASSWORD > 0 then
      rtos_printf "\tPassword is %s\n" [.str appconfSOFT_AP_PASSWORD]
    else
      rtos_printf "\tThere is no password\n" []
    strcpy_ssid appconfSOFT_AP_SSID
    strcpy_password appconfSOFT_AP_PASSWORD
    pure k.WIFI_CONN_MGR_MODE_SOFT_AP
  else if event = k.WIFI_CONN_MGR_EVENT_CONNECTED then do
    let ssid ← get_ssid
    rtos_printf "Connected to %s\n" [.str ssid]
    pure k.WIFI_CONN_MGR_MODE_STATION
  else if event = k.WIFI_CONN_MGR_EVENT_DISCONNECTED then do
    let ssid ← get_ssid
    if ssid ≠ "" then
      rtos_printf "Disconnected from %s\n" [.str ssid]
    else
      rtos_printf "Disconnected from AP\n" []
    pure k.WIFI_CONN_MGR_MODE_STATION
  else if event = k.WIFI_CONN_MGR_EVENT_SOFT_AP_STARTED then do
    let ssid ← get_ssid
    rtos_printf "Soft AP %s started\n" [.str ssid]
    pure k.WIFI_CONN_MGR_MODE_SOFT_AP
  else if event = k.WIFI_CONN_MGR_EVENT_SOFT_AP_STOPPED then do
    let ssid ← get_ssid
    rtos_printf "Soft AP %s stopped. Going into station mode\n" [.str ssid]
    pure k.WIFI_CONN_MGR_MODE_STATION
  else
    pure k.WIFI_CONN_MGR_MODE_STATION

/-- The six recorded calls of one loop iteration of `scan`. -/
def scan_calls (k : LibConsts) (i : Nat) (r : WIFIScanResult_t) : List PrintfCall :=
  [⟨"Scan result %d:\n", [.int i]⟩,
   ⟨"\tBSSID: " ++ HWADDR_FMT ++ "\n", .int i :: HWADDR_ARG r.ucBSSID⟩,
   ⟨"\tSSID: %s\n", [.str r.cSSID]⟩,
   ⟨"\tSecurity: %s dBm\n",
     [.str (if r.xSecurity = k.eWiFiSecurityOpen then "open"
            else if r.xSecurity = k.eWiFiSecurityWEP then "WEP" else "WPA")]⟩,
   ⟨"\tChannel: %d\n", [.int r.cChannel]⟩,
   ⟨"\tStrength: %d dBm\n\n", [.int r.cRSSI]⟩]

/-- An entry whose BSSID is all zero bytes. -/
def WIFIScanResult_t.noBssid (r : WIFIScanResult_t) : Bool :=
  r.ucBSSID.bytes.all (fun b => b == 0)

/-- The calls recorded by the loop of `scan` started at counter `i` on the
entries `rs` that remain in the buffer. -/
def printed (k : LibConsts) : Nat → List WIFIScanResult_t → List PrintfCall
  | _, [] => []
  | i, r :: rs => if r.noBssid then [] else scan_calls k i r ++ printed k (i + 1) rs

/-- Index of the first entry of the buffer whose BSSID is all zero bytes, or
the length of the buffer when there is none. -/
def firstNoBssid (buf : List WIFIScanResult_t) : Nat :=
  buf.findIdx WIFIScanResult_t.noBssid

/-- The calls recorded for the entries `rs`, numbered from `i` upwards. -/
def printedEntries (k : LibConsts) (i : Nat) (rs : List WIFIScanResult_t) : List PrintfCall :=
  ((rs.enumFrom i).map (fun p => scan_calls k p.1 p.2)).flatten

/-- Two-digit, zero-padded, lower-case hexadecimal text of `%02x` for a value. -/
def hex02 (n : Nat) : List Char := padLeft true 2 (Nat.toDigits 16 (n % 4294967296))

/-- The scan output: what `scan` appends to the record of calls. -/
def scanOutput (k : LibConsts) (s : ScanOutcome) : List PrintfCall :=
  if s.code = k.eWiFiSuccess then
    printedEntries k 0 (s.scan_results.take (firstNoBssid s.scan_results))
  else []

/-! ## Bring-up: `main_tile0` and the tasks it starts -/

/-- The functions of `main.c` that run as threads of control: `main_tile0` on
the tile's main thread, the other two as tasks created with `xTaskCreate`. -/
inductive TaskFn
  | main_tile0
  | vApplicationDaemonTaskStartup
  | wifi_setup_task
  deriving DecidableEq, Repr

/-- Calls to library routines made by the bring-up code (arguments other than
the task function of `xTaskCreate` and the text of a log line are left out). -/
inductive Call
  | rtos_gpio_init
  | rtos_spi_master_init
  | rtos_spi_master_device_init
  | rtos_gpio_start
  | rtos_spi_master_start
  | xTaskCreate (f : TaskFn)
  | vTaskStartScheduler
  | rtos_gpio_port
  | vTaskDelay
  | sl_wfx_host_set_hif
  | FreeRTOS_IPInit
  | wifi_conn_mgr_start
  | vTaskDelete_NULL
  | rtos_printf (p : PrintfCall)
  deriving DecidableEq, Repr

/-- One instruction of a function body: a library call, or the statement
`while(1)` with an empty body. -/
inductive Instr
  | call (c : Call)
  | while_1
  deriving DecidableEq, Repr

/-- The macro `kernel_printf(FMT, ...)`, which expands to
`rtos_printf("KERNEL", FMT, ...)`. -/
def kernel_printf (fmt : String) (args : List Arg) : Call :=
  .rtos_printf ⟨"KERNEL", .str fmt :: args⟩

/-- The function `platform_init`. -/
def platform_init : List Instr :=
  [.call .rtos_gpio_init, .call .rtos_spi_master_init, .call .rtos_spi_master_device_init]

/-- The function `platform_start`. -/
def platform_start : List Instr :=
  [.call .rtos_gpio_start, .call .rtos_spi_master_start]

/-- The function `wifi_start`. -/
def wifi_start : List Instr :=
  [.call (.xTaskCreate .wifi_setup_task)]

/-- The function `wifi_setup_task`. -/
def wifi_setup_task : List Instr :=
  [.call .rtos_gpio_port,
   .call .rtos_gpio_port,
   .call .vTaskDelay,
   .call .sl_wfx_host_set_hif,
   .call (.rtos_printf ⟨"Start FreeRTOS_IP\n", []⟩),
   .call .FreeRTOS_IPInit,
   .call (.rtos_printf ⟨"Start WiFi connection manager\n", []⟩),
   .call .wifi_conn_mgr_start,
   .call .vTaskDelete_NULL]

/-- The function `vApplicationDaemonTaskStartup`. -/
def vApplicationDaemonTaskStartup : List Instr :=
  platform_start ++ wifi_start ++ [.while_1, .call .vTaskDelete_NULL]

/-- The function `main_tile0`. -/
def main_tile0 : List Instr :=
  platform_init ++
    [.call (.xTaskCreate .vApplicationDaemonTaskStartup),
     .call (kernel_printf "Start scheduler" []),
     .call .vTaskStartScheduler]

/-- Body of a thread function. -/
def TaskFn.body : TaskFn → List Instr
  | .main_tile0 => WifiTest.main_tile0
  | .vApplicationDaemonTaskStartup => WifiTest.vApplicationDaemonTaskStartup
  | .wifi_setup_task => WifiTest.wifi_setup_task

/-- A thread of control: its function and the index of its next instruction. -/
structure Thread where
  fn : TaskFn
  pc : Nat
  deriving DecidableEq, Repr

/-- A library call together with the thread function that made it. -/
abbrev Event : Type := TaskFn × Call

/-- One step of thread number `n`.  A call is recorded and the thread moves on;
`xTaskCreate` adds a thread at the start of the created function;
`vTaskDelete(NULL)` ends the calling thread; `while(1)` stays where it is; a
thread that has reached the end of its function does nothing. -/
def step (n : Nat) (threads : List Thread) : List Thread × List Event :=
  match threads.get? n with
  | none => (threads, [])
  | some t =>
    match t.fn.body.get? t.pc with
    | none => (threads, [])
    | some .while_1 => (threads, [])
    | some (.call c) =>
      let next : Nat := if c = .vTaskDelete_NULL then t.fn.body.length else t.pc + 1
      let threads1 := threads.set n { t with pc := next }
      match c with
      | .xTaskCreate g => (threads1 ++ [⟨g, 0⟩], [(t.fn, c)])
      | _ => (threads1, [(t.fn, c)])

/-- The events of an execution in which the scheduler lets the threads listed
in `schedule` take one step each, in that order. -/
def run : List Nat → List Thread → List Event
  | [], _ => []
  | n :: schedule, threads => (step n threads).2 ++ run schedule (step n threads).1

/-- The threads after the schedule has been followed. -/
def runThreads : List Nat → List Thread → List Thread
  | [], threads => threads
  | n :: schedule, threads => runThreads schedule (step n threads).1

/-- At reset only `main_tile0` runs. -/
def boot : List Thread := [⟨.main_tile0, 0⟩]

/-- The calls the bring-up sequence is made of: initialisation and start of the
drivers, creation of tasks, the networking calls of the setup task and the
deletion of a task. -/
def Call.isBringUp : Call → Bool
  | .rtos_gpio_init | .rtos_spi_master_init | .rtos_spi_master_device_init => true
  | .rtos_gpio_start | .rtos_spi_master_start => true
  | .xTaskCreate _ => true
  | .sl_wfx_host_set_hif | .FreeRTOS_IPInit | .wifi_conn_mgr_start => true
  | .vTaskDelete_NULL => true
  | _ => false

/-- The bring-up sequence. -/
def bringUpSequence : List Event :=
  [(.main_tile0, .rtos_gpio_init),
   (.main_tile0, .rtos_spi_master_init),
   (.main_tile0, .rtos_spi_master_device_init),
   (.main_tile0, .xTaskCreate .vApplicationDaemonTaskStartup),
   (.vApplicationDaemonTaskStartup, .rtos_gpio_start),
   (.vApplicationDaemonTaskStartup, .rtos_spi_master_start),
   (.vApplicationDaemonTaskStartup, .xTaskCreate .wifi_setup_task),
   (.wifi_setup_task, .sl_wfx_host_set_hif),
   (.wifi_setup_task, .FreeRTOS_IPInit),
   (.wifi_setup_task, .wifi_conn_mgr_start),
   (.wifi_setup_task, .vTaskDelete_NULL)]

/-- The bring-up calls among a list of events. -/
def bringUp (es : List Event) : List Event := es.filter (fun e => e.2.isBringUp)

/-- Thread states together with the number of bring-up calls made so far. -/
abbrev Config : Type := List Thread × Nat

/-- The configurations an execution from `boot` can be in: `main_tile0` alone
up to its `xTaskCreate`; then with the startup task up to its `xTaskCreate`;
then with the startup task at its `while(1)` and the setup task anywhere. -/
def reachable : List Config :=
  (List.range 4).map (fun m => ([⟨.main_tile0, m⟩], m))
  ++ ([4, 5, 6].map (fun m => (List.range 3).map (fun a =>
        (([⟨.main_tile0, m⟩, ⟨.vApplicationDaemonTaskStartup, a⟩], 4 + a) : Config)))).flatten
  ++ ([4, 5, 6].map (fun m => (List.range 10).map (fun b =>
        (([⟨.main_tile0, m⟩, ⟨.vApplicationDaemonTaskStartup, 3⟩, ⟨.wifi_setup_task, b⟩],
          7 + (bringUp ((wifi_setup_task.take b).filterMap (fun i =>
            match i with
            | .call c => some (TaskFn.wifi_setup_task, c)
            | .while_1 => none))).length) : Config)))).flatten

/-- A step of thread `n` from `c` leads to a configuration of `reachable`, and
the bring-up calls it makes are the next ones of `bringUpSequence`. -/
def stepOk (c : Config) (n : Nat) : Bool :=
  reachable.any (fun d =>
    d.1 == (step n c.1).1 &&
      bringUpSequence.drop c.2 == bringUp (step n c.1).2 ++ bringUpSequence.drop d.2)

/-- An initialisation call of `platform_init`. -/
def Call.isInit : Call → Bool
  | .rtos_gpio_init | .rtos_spi_master_init | .rtos_spi_master_device_init => true
  | _ => false

/-- A start call of `platform_start`, or a networking call of the setup task. -/
def Call.isStartOrNet : Call → Bool
  | .rtos_gpio_start | .rtos_spi_master_start => true
  | .sl_wfx_host_set_hif | .FreeRTOS_IPInit | .wifi_conn_mgr_start => true
  | _ => false

/-! ## Sample data -/

/-- A scan entry with a BSSID. -/
def sampleEntry : WIFIScanResult_t :=
  { cSSID := "lab", ucBSSID := ⟨0, 26, 43, 60, 77, 94⟩, xSecurity := 0, cRSSI := -40,
    cChannel := 6 }

/-- A scan entry whose BSSID is all zero bytes. -/
def emptyEntry : WIFIScanResult_t :=
  { cSSID := "", ucBSSID := ⟨0, 0, 0, 0, 0, 0⟩, xSecurity := 0, cRSSI := 0, cChannel := 0 }

/-- A successful scan that found one network. -/
def sampleScan : ScanOutcome :=
  { code := 0, scan_results := sampleEntry :: List.replicate 9 emptyEntry }

/-- A scan that failed. -/
def failedScan : ScanOutcome :=
  { code := 1, scan_results := List.replicate 10 sampleEntry }

/-- An empty identity and nothing logged yet. -/
def emptyWorld : World := { ssid := "", password := "", out := [] }

/-- The formats of the `rtos_printf` calls of `scan`. -/
def scanFormats : List String :=
  ["Scan result %d:\n", "\tBSSID: %02x:%02x:%02x:%02x:%02x:%02x\n", "\tSSID: %s\n",
   "\tSecurity: %s dBm\n", "\tChannel: %d\n", "\tStrength: %d dBm\n\n"]

/-- A schedule that lets `main_tile0`, then the startup task, then the setup
task run. -/
def sampleSchedule : List Nat :=
  List.replicate 6 0 ++ List.replicate 4 1 ++ List.replicate 9 2

/-! ## Lemmas -/

theorem bind_apply {α β : Type} (m : Prog α) (f : α → Prog β) (w : World) :
    (m >>= f) w = Prog.bind m f w := rfl

theorem pure_apply {α : Type} (a : α) (w : World) : (pure a : Prog α) w = .ret a w := rfl

theorem rtos_printf_apply (fmt : String) (args : List Arg) (w : World) :
    rtos_printf fmt args w = .ret () { w with out := w.out ++ [⟨fmt, args⟩] } := rfl

theorem scan_print_apply (k : LibConsts) (i : Nat) (r : WIFIScanResult_t) (w : World) :
    scan_print k i r w = .ret () { w with out := w.out ++ scan_calls k i r } := by
  simp [scan_print, scan_calls, bind_apply, Prog.bind, rtos_printf_apply]

theorem memcmp_no_bssid (r : WIFIScanResult_t) :
    memcmp r.ucBSSID.bytes no_bssid wificonfigMAX_BSSID_LEN = 0 ↔ r.noBssid = true := by
  obtain ⟨s, ⟨b0, b1, b2, b3, b4, b5⟩, x, c, d⟩ := r
  simp only [BSSID.bytes, no_bssid, wificonfigMAX_BSSID_LEN, List.replicate, memcmp,
    WIFIScanResult_t.noBssid, List.all_cons, List.all_nil, Bool.and_true, Bool.and_eq_true,
    beq_iff_eq, Nat.not_lt_zero, if_false]
  constructor
  · intro h
    split_ifs at h <;> simp_all
  · rintro ⟨rfl, rfl, rfl, rfl, rfl, rfl⟩
    simp

theorem scan_loop_apply (k : LibConsts) (buf : List WIFIScanResult_t) (hlen : 10 ≤ buf.length)
    (fuel i : Nat) (hi : i ≤ 10) (hf : 11 ≤ fuel + i) (w : World) :
    scan_loop k buf fuel i w
      = .ret () { w with out := w.out ++ printed k i ((buf.take 10).drop i) } := by
  induction fuel generalizing i w with
  | zero => omega
  | succ n ih =>
    unfold scan_loop
    by_cases h10 : i < 10
    · have hlt : i < buf.length := by omega
      have hlt2 : i < (buf.take 10).length := by simp; omega
      have hdrop : (buf.take 10).drop i = buf[i] :: (buf.take 10).drop (i + 1) := by
        rw [List.drop_eq_getElem_cons hlt2]
        simp
      simp only [h10, if_true, List.get?_eq_getElem?, List.getElem?_eq_getElem hlt, hdrop,
        printed]
      by_cases hz : buf[i].noBssid = true
      · simp [(memcmp_no_bssid _).2 hz, hz, pure_apply]
      · have hm : ¬ memcmp buf[i].ucBSSID.bytes no_bssid wificonfigMAX_BSSID_LEN = 0 :=
          fun h => hz ((memcmp_no_bssid _).1 h)
        simp only [hm, if_false, hz, bind_apply, Prog.bind, scan_print_apply]
        rw [ih (i + 1) (by omega) (by omega)]
        simp
    · have : i = 10 := by omega
      subst this
      have hnil : (buf.take 10).drop 10 = [] :=
        List.drop_eq_nil_of_le (by simp)
      simp [pure_apply, printed, hnil]

theorem printed_eq (k : LibConsts) (i : Nat) (rs : List WIFIScanResult_t) :
    printed k i rs = printedEntries k i (rs.take (firstNoBssid rs)) := by
  induction rs generalizing i with
  | nil => simp [printed, printedEntries, firstNoBssid]
  | cons r rs ih =>
    by_cases hz : r.noBssid = true
    · simp [printed, printedEntries, firstNoBssid, List.findIdx_cons, hz]
    · have ih2 := ih (i + 1)
      simp only [printedEntries, firstNoBssid] at ih2
      simp [printed, printedEntries, firstNoBssid, List.findIdx_cons, hz, ih2,
        List.enumFrom]

theorem scan_apply (k : LibConsts) (s : ScanOutcome) (hlen : 10 ≤ s.scan_results.length)
    (w : World) :
    scan k s w = .ret ()
      { w with out := w.out ++
          (if s.code = k.eWiFiSuccess then
            printedEntries k 0
              ((s.scan_results.take 10).take (firstNoBssid (s.scan_results.take 10)))
           else []) } := by
  unfold scan
  by_cases hc : s.code = k.eWiFiSuccess
  · simp only [hc, if_true]
    rw [scan_loop_apply k _ hlen 11 0 (by omega) (by omega), List.drop_zero, printed_eq]
  · simp [hc, pure_apply]

theorem scan_apply_fail (k : LibConsts) (s : ScanOutcome) (hc : s.code ≠ k.eWiFiSuccess)
    (w : World) : scan k s w = .ret () w := by
  simp [scan, hc, pure_apply]

theorem scan_calls_mem (k : LibConsts) (buf : List WIFIScanResult_t) (n i : Nat)
    (hi : i < n) (r : WIFIScanResult_t) (hr : buf.get? i = some r) (c : PrintfCall)
    (hc : c ∈ scan_calls k i r) : c ∈ printedEntries k 0 (buf.take n) := by
  unfold printedEntries
  rw [List.mem_flatten]
  refine ⟨scan_calls k i r, ?_, hc⟩
  rw [List.mem_map]
  refine ⟨(i, r), ?_, rfl⟩
  have h := (List.mk_add_mem_enumFrom_iff_getElem? (n := 0) (i := i) (x := r)
    (l := buf.take n)).2
  rw [Nat.zero_add] at h
  apply h
  rw [List.getElem?_take_of_lt hi, ← List.get?_eq_getElem?]
  exact hr

theorem render_bssid (i : Nat) (b : BSSID) :
    render ⟨"\tBSSID: " ++ HWADDR_FMT ++ "\n", .int i :: HWADDR_ARG b⟩
      = String.mk ("\tBSSID: ".data ++ hex02 i ++ ':' :: hex02 b.b0 ++ ':' :: hex02 b.b1
          ++ ':' :: hex02 b.b2 ++ ':' :: hex02 b.b3 ++ ':' :: hex02 b.b4 ++ ['\n']) := by
  have hd : ("\tBSSID: " ++ HWADDR_FMT ++ "\n").data
      = ['\t', 'B', 'S', 'S', 'I', 'D', ':', ' ', '%', '0', '2', 'x', ':', '%', '0', '2', 'x',
         ':', '%', '0', '2', 'x', ':', '%', '0', '2', 'x', ':', '%', '0', '2', 'x', ':',
         '%', '0', '2', 'x', '\n'] := by decide
  have hm : ∀ n : Nat, ((n : Int) % 4294967296).toNat = n % 4294967296 := by
    intro n; omega
  simp [render, hd, vformat, HWADDR_ARG, convert, hex02, hm]

theorem distinct_ne (k : LibConsts) (hk : k.distinct) :
    k.WIFI_CONN_MGR_EVENT_STARTUP ≠ k.WIFI_CONN_MGR_EVENT_CONNECT_FAILED
    ∧ k.WIFI_CONN_MGR_EVENT_STARTUP ≠ k.WIFI_CONN_MGR_EVENT_CONNECTED
    ∧ k.WIFI_CONN_MGR_EVENT_STARTUP ≠ k.WIFI_CONN_MGR_EVENT_DISCONNECTED
    ∧ k.WIFI_CONN_MGR_EVENT_STARTUP ≠ k.WIFI_CONN_MGR_EVENT_SOFT_AP_STARTED
    ∧ k.WIFI_CONN_MGR_EVENT_STARTUP ≠ k.WIFI_CONN_MGR_EVENT_SOFT_AP_STOPPED
    ∧ k.WIFI_CONN_MGR_EVENT_CONNECT_FAILED ≠ k.WIFI_CONN_MGR_EVENT_CONNECTED
    ∧ k.WIFI_CONN_MGR_EVENT_CONNECT_FAILED ≠ k.WIFI_CONN_MGR_EVENT_DISCONNECTED
    ∧ k.WIFI_CONN_MGR_EVENT_CONNECT_FAILED ≠ k.WIFI_CONN_MGR_EVENT_SOFT_AP_STARTED
    ∧ k.WIFI_CONN_MGR_EVENT_CONNECT_FAILED ≠ k.WIFI_CONN_MGR_EVENT_SOFT_AP_STOPPED
    ∧ k.WIFI_CONN_MGR_EVENT_CONNECTED ≠ k.WIFI_CONN_MGR_EVENT_DISCONNECTED
    ∧ k.WIFI_CONN_MGR_EVENT_CONNECTED ≠ k.WIFI_CONN_MGR_EVENT_SOFT_AP_STARTED
    ∧ k.WIFI_CONN_MGR_EVENT_CONNECTED ≠ k.WIFI_CONN_MGR_EVENT_SOFT_AP_STOPPED
    ∧ k.WIFI_CONN_MGR_EVENT_DISCONNECTED ≠ k.WIFI_CONN_MGR_EVENT_SOFT_AP_STARTED
    ∧ k.WIFI_CONN_MGR_EVENT_DISCONNECTED ≠ k.WIFI_CONN_MGR_EVENT_SOFT_AP_STOPPED
    ∧ k.WIFI_CONN_MGR_EVENT_SOFT_AP_STARTED ≠ k.WIFI_CONN_MGR_EVENT_SOFT_AP_STOPPED := by
  unfold LibConsts.distinct LibConsts.events at hk
  simp only [List.nodup_cons, List.mem_cons, List.mem_singleton, not_or, List.not_mem_nil,
    not_false_eq_true, List.nodup_nil, and_true] at hk
  tauto

theorem event_cb_startup (k : LibConsts) (s : ScanOutcome) (w : World) :
    wifi_conn_mgr_event_cb k s k.WIFI_CONN_MGR_EVENT_STARTUP w
      = .ret k.WIFI_CONN_MGR_MODE_STATION
          { w with out := w.out ++ [⟨"Directing WiFi manager to go into station mode\n", []⟩] } := by
  simp [wifi_conn_mgr_event_cb, bind_apply, Prog.bind, rtos_printf_apply, pure_apply]

theorem event_cb_connected (k : LibConsts) (hk : k.distinct) (s : ScanOutcome) (w : World) :
    wifi_conn_mgr_event_cb k s k.WIFI_CONN_MGR_EVENT_CONNECTED w
      = .ret k.WIFI_CONN_MGR_MODE_STATION
          { w with out := w.out ++ [⟨"Connected to %s\n", [.str w.ssid]⟩] } := by
  obtain ⟨h1, h2, h3, h4, h5, h6, h7, h8, h9, h10, h11, h12, h13, h14, h15⟩ := distinct_ne k hk
  simp [wifi_conn_mgr_event_cb, bind_apply, Prog.bind, rtos_printf_apply, pure_apply, get_ssid,
    h2.symm, h6.symm]

theorem event_cb_disconnected (k : LibConsts) (hk : k.distinct) (s : ScanOutcome) (w : World) :
    wifi_conn_mgr_event_cb k s k.WIFI_CONN_MGR_EVENT_DISCONNECTED w
      = .ret k.WIFI_CONN_MGR_MODE_STATION
          { w with out := w.out ++
              [if w.ssid ≠ "" then ⟨"Disconnected from %s\n", [.str w.ssid]⟩
               else ⟨"Disconnected from AP\n", []⟩] } := by
  obtain ⟨h1, h2, h3, h4, h5, h6, h7, h8, h9, h10, h11, h12, h13, h14, h15⟩ := distinct_ne k hk
  by_cases hs : w.ssid = "" <;>
  simp [wifi_conn_mgr_event_cb, bind_apply, Prog.bind, rtos_printf_apply, pure_apply, get_ssid,
    h3.symm, h7.symm, h10.symm, hs]

theorem event_cb_soft_ap_started (k : LibConsts) (hk : k.distinct) (s : ScanOutcome)
    (w : World) :
    wifi_conn_mgr_event_cb k s k.WIFI_CONN_MGR_EVENT_SOFT_AP_STARTED w
      = .ret k.WIFI_CONN_MGR_MODE_SOFT_AP
          { w with out := w.out ++ [⟨"Soft AP %s started\n", [.str w.ssid]⟩] } := by
  obtain ⟨h1, h2, h3, h4, h5, h6, h7, h8, h9, h10, h11, h12, h13, h14, h15⟩ := distinct_ne k hk
  simp [wifi_conn_mgr_event_cb, bind_apply, Prog.bind, rtos_printf_apply, pure_apply, get_ssid,
    h4.symm, h8.symm, h11.symm, h13.symm]

theorem event_cb_soft_ap_stopped (k : LibConsts) (hk : k.distinct) (s : ScanOutcome)
    (w : World) :
    wifi_conn_mgr_event_cb k s k.WIFI_CONN_MGR_EVENT_SOFT_AP_STOPPED w
      = .ret k.WIFI_CONN_MGR_MODE_STATION
          { w with out := w.out ++
              [⟨"Soft AP %s stopped. Going into station mode\n", [.str w.ssid]⟩] } := by
  obtain ⟨h1, h2, h3, h4, h5, h6, h7, h8, h9, h10, h11, h12, h13, h14, h15⟩ := distinct_ne k hk
  simp [wifi_conn_mgr_event_cb, bind_apply, Prog.bind, rtos_printf_apply, pure_apply, get_ssid,
    h5.symm, h9.symm, h12.symm, h14.symm, h15.symm]

theorem event_cb_unknown (k : LibConsts) (s : ScanOutcome) (event : Int)
    (he : event ∉ k.events) (w : World) :
    wifi_conn_mgr_event_cb k s event w = .ret k.WIFI_CONN_MGR_MODE_STATION w := by
  simp only [LibConsts.events, List.mem_cons, List.mem_singleton, not_or, List.not_mem_nil,
    not_false_eq_true, and_true] at he
  obtain ⟨h1, h2, h3, h4, h5, h6⟩ := he
  simp [wifi_conn_mgr_event_cb, pure_apply, h1, h2, h3, h4, h5, h6]

theorem scan_apply_ten (k : LibConsts) (s : ScanOutcome) (hlen : s.scan_results.length = 10)
    (w : World) : scan k s w = .ret () { w with out := w.out ++ scanOutput k s } := by
  have h := scan_apply k s (by omega) w
  have ht : s.scan_results.take 10 = s.scan_results := List.take_of_length_le (by omega)
  rw [ht] at h
  exact h

theorem event_cb_connect_failed (k : LibConsts) (hk : k.distinct) (s : ScanOutcome)
    (hlen : s.scan_results.length = 10) (w : World) :
    wifi_conn_mgr_event_cb k s k.WIFI_CONN_MGR_EVENT_CONNECT_FAILED w
      = .exited 0
          { w with out := w.out ++ scanOutput k s
              ++ [⟨"Scan complete.  Program exitting now...\n", []⟩] } := by
  obtain ⟨h1, h2, h3, h4, h5, h6, h7, h8, h9, h10, h11, h12, h13, h14, h15⟩ := distinct_ne k hk
  simp [wifi_conn_mgr_event_cb, bind_apply, Prog.bind, rtos_printf_apply, pure_apply,
    h1.symm, scan_apply_ten k s hlen, _Exit]

theorem reachable_closed :
    (reachable.all (fun c => [0, 1, 2].all (fun n => stepOk c n))) = true := by
  decide

theorem reachable_length :
    (reachable.all (fun c => decide (c.1.length ≤ 3))) = true := by
  decide

theorem step_reachable (c : Config) (hc : c ∈ reachable) (n : Nat) :
    ∃ d ∈ reachable, d.1 = (step n c.1).1 ∧
      bringUpSequence.drop c.2 = bringUp (step n c.1).2 ++ bringUpSequence.drop d.2 := by
  by_cases hn : n < 3
  · have h := List.all_eq_true.1 reachable_closed c hc
    have hmem : n ∈ [0, 1, 2] := by
      simp only [List.mem_cons, List.mem_singleton, List.not_mem_nil, or_false]
      omega
    have h2 := List.all_eq_true.1 h n hmem
    unfold stepOk at h2
    obtain ⟨d, hd, hd2⟩ := List.any_eq_true.1 h2
    simp only [Bool.and_eq_true, beq_iff_eq] at hd2
    exact ⟨d, hd, hd2.1, hd2.2⟩
  · have hl := List.all_eq_true.1 reachable_length c hc
    simp only [decide_eq_true_eq] at hl
    have hnone : c.1.get? n = none := List.get?_eq_none.2 (by omega)
    have hs : step n c.1 = (c.1, []) := by
      unfold step
      rw [hnone]
    refine ⟨c, hc, ?_, ?_⟩
    · rw [hs]
    · rw [hs]
      simp [bringUp]

theorem run_reachable (schedule : List Nat) (c : Config) (hc : c ∈ reachable) :
    ∃ d ∈ reachable, d.1 = runThreads schedule c.1 ∧
      bringUpSequence.drop c.2 = bringUp (run schedule c.1) ++ bringUpSequence.drop d.2 := by
  induction schedule generalizing c with
  | nil => exact ⟨c, hc, rfl, by simp [run, bringUp]⟩
  | cons n rest ih =>
    obtain ⟨d, hd, hd1, hd2⟩ := step_reachable c hc n
    obtain ⟨e, he, he1, he2⟩ := ih d hd
    refine ⟨e, he, ?_, ?_⟩
    · rw [he1, hd1]
      rfl
    · rw [hd2, he2, hd1]
      simp [run, bringUp, List.filter_append]

theorem boot_reachable : ((boot, 0) : Config) ∈ reachable := by decide

theorem bringUp_run_boot (schedule : List Nat) :
    bringUp (run schedule boot) <+: bringUpSequence := by
  obtain ⟨d, _, _, hd2⟩ := run_reachable schedule (boot, 0) boot_reachable
  exact ⟨bringUpSequence.drop d.2, hd2.symm⟩

theorem init_before_start (schedule : List Nat) :
    (run schedule boot).Pairwise
      (fun a b => ¬ (a.2.isStartOrNet = true ∧ b.2.isInit = true)) := by
  have hseq : bringUpSequence.Pairwise
      (fun a b => ¬ (a.2.isStartOrNet = true ∧ b.2.isInit = true)) := by decide
  have hpre := (bringUp_run_boot schedule).sublist
  have h := hseq.sublist hpre
  unfold bringUp at h
  have h3 := (List.pairwise_filter (p := fun e : Event => e.2.isBringUp = true)
    (l := run schedule boot)).1 (by simpa using h)
  refine h3.imp ?_
  intro a b hab hcon
  have ha : a.2.isBringUp = true := by
    obtain ⟨f, c⟩ := a
    cases c <;> simp_all [Call.isStartOrNet, Call.isBringUp]
  have hb : b.2.isBringUp = true := by
    obtain ⟨f, c⟩ := b
    cases c <;> simp_all [Call.isInit, Call.isBringUp]
  have hf := hab ha hb hcon.1
  rw [hcon.2] at hf
  exact Bool.noConfusion hf

theorem startup_pc_le (schedule : List Nat) (t : Thread)
    (ht : t ∈ runThreads schedule boot) (hfn : t.fn = .vApplicationDaemonTaskStartup) :
    t.pc ≤ 3 := by
  obtain ⟨d, hd, hd1, _⟩ := run_reachable schedule (boot, 0) boot_reachable
  have hall : (reachable.all (fun c => c.1.all (fun t =>
      decide (t.fn = .vApplicationDaemonTaskStartup → t.pc ≤ 3)))) = true := by decide
  have h1 := List.all_eq_true.1 hall d hd
  rw [hd1] at h1
  have h2 := List.all_eq_true.1 h1 t ht
  simp only [decide_eq_true_eq] at h2
  exact h2 hfn

theorem startup_no_delete (schedule : List Nat) :
    (TaskFn.vApplicationDaemonTaskStartup, Call.vTaskDelete_NULL) ∉ run schedule boot := by
  intro hmem
  have h1 : (TaskFn.vApplicationDaemonTaskStartup, Call.vTaskDelete_NULL)
      ∈ bringUp (run schedule boot) := by
    unfold bringUp
    rw [List.mem_filter]
    exact ⟨hmem, rfl⟩
  have h2 := (bringUp_run_boot schedule).subset h1
  revert h2
  decide

theorem scanOutput_fmt (k : LibConsts) (s : ScanOutcome) (p : PrintfCall)
    (hp : p ∈ scanOutput k s) : p.fmt ∈ scanFormats := by
  unfold scanOutput at hp
  split_ifs at hp
  · unfold printedEntries at hp
    rw [List.mem_flatten] at hp
    obtain ⟨l, hl, hpl⟩ := hp
    rw [List.mem_map] at hl
    obtain ⟨q, _, rfl⟩ := hl
    have hfmt : ("\tBSSID: " ++ HWADDR_FMT ++ "\n")
        = "\tBSSID: %02x:%02x:%02x:%02x:%02x:%02x\n" := by decide
    simp only [scan_calls, List.mem_cons, List.mem_singleton, List.not_mem_nil, or_false,
      hfmt] at hpl
    rcases hpl with h | h | h | h | h | h <;> subst h <;> simp [scanFormats]
  · simp at hp

theorem render_disconnected (ssid : String) :
    render ⟨"Disconnected from %s\n", [.str ssid]⟩ = "Disconnected from " ++ ssid ++ "\n" := by
  have hd : ("Disconnected from %s\n").data
      = ['D', 'i', 's', 'c', 'o', 'n', 'n', 'e', 'c', 't', 'e', 'd', ' ', 'f', 'r', 'o', 'm',
         ' ', '%', 's', '\n'] := by decide
  apply String.ext
  simp [render, hd, vformat, convert, padLeft]

/-! ## The claims -/

/-- C1: for every identity and every scan outcome, `wifi_conn_mgr_event_cb` returns
SoftAp for the event SoftApStarted, returns Station for each of Startup, Connected,
Disconnected and SoftApStopped, and returns Station, with no effect at all, for every
event value that is none of the six defined events. -/
theorem event_cb_directive (k : LibConsts) (hk : k.distinct) (s : ScanOutcome) (w : World) :
    (∃ w1, wifi_conn_mgr_event_cb k s k.WIFI_CONN_MGR_EVENT_SOFT_AP_STARTED w
        = .ret k.WIFI_CONN_MGR_MODE_SOFT_AP w1)
    ∧ (∀ event ∈ [k.WIFI_CONN_MGR_EVENT_STARTUP, k.WIFI_CONN_MGR_EVENT_CONNECTED,
          k.WIFI_CONN_MGR_EVENT_DISCONNECTED, k.WIFI_CONN_MGR_EVENT_SOFT_AP_STOPPED],
        ∃ w1, wifi_conn_mgr_event_cb k s event w = .ret k.WIFI_CONN_MGR_MODE_STATION w1)
    ∧ (∀ event, event ∉ k.events →
        wifi_conn_mgr_event_cb k s event w = .ret k.WIFI_CONN_MGR_MODE_STATION w) := by
  refine ⟨⟨_, event_cb_soft_ap_started k hk s w⟩, ?_, fun event he => event_cb_unknown k s event he w⟩
  intro event he
  simp only [List.mem_cons, List.mem_singleton, List.not_mem_nil, or_false] at he
  rcases he with rfl | rfl | rfl | rfl
  · exact ⟨_, event_cb_startup k s w⟩
  · exact ⟨_, event_cb_connected k hk s w⟩
  · exact ⟨_, event_cb_disconnected k hk s w⟩
  · exact ⟨_, event_cb_soft_ap_stopped k hk s w⟩

theorem event_cb_directive_witness :
    sampleConsts.distinct
    ∧ wifi_conn_mgr_event_cb sampleConsts failedScan 77 ⟨"home-net", "secret", []⟩
        = .ret 0 ⟨"home-net", "secret", []⟩ :=
  ⟨by decide,
    (event_cb_directive sampleConsts (by decide) failedScan ⟨"home-net", "secret", []⟩).2.2 77
      (by decide)⟩

/-- C3: for every event value other than ConnectFailed (defined or not), every identity
and every scan outcome, `wifi_conn_mgr_event_cb` returns and the ssid and the password
after the call are the ssid and the password before it. -/
theorem event_cb_preserves_identity (k : LibConsts) (s : ScanOutcome) (event : Int)
    (he : event ≠ k.WIFI_CONN_MGR_EVENT_CONNECT_FAILED) (w : World) :
    ∃ mode w1, wifi_conn_mgr_event_cb k s event w = .ret mode w1
      ∧ w1.ssid = w.ssid ∧ w1.password = w.password := by
  unfold wifi_conn_mgr_event_cb
  simp only [he, if_false]
  split_ifs
  all_goals simp only [bind_apply, Prog.bind, rtos_printf_apply, pure_apply, get_ssid]
  all_goals try split_ifs
  all_goals exact ⟨_, _, rfl, rfl, rfl⟩

theorem event_cb_preserves_identity_witness :
    (∃ mode w1, wifi_conn_mgr_event_cb sampleConsts failedScan 0 ⟨"", "", []⟩ = .ret mode w1
      ∧ w1.ssid = "" ∧ w1.password = "")
    ∧ (∃ mode w1, wifi_conn_mgr_event_cb sampleConsts failedScan 5 ⟨"xcore.ai", "xmos", []⟩
        = .ret mode w1 ∧ w1.ssid = "xcore.ai" ∧ w1.password = "xmos") :=
  ⟨event_cb_preserves_identity sampleConsts failedScan 0 (by decide) ⟨"", "", []⟩,
   event_cb_preserves_identity sampleConsts failedScan 5 (by decide) ⟨"xcore.ai", "xmos", []⟩⟩

/-- C5: for the event Disconnected and every password, `wifi_conn_mgr_event_cb` logs
with the call `rtos_printf("Disconnected from %s\n", ssid)`, whose text is
"Disconnected from <ssid>", when the ssid is not empty, and with the different call
`rtos_printf("Disconnected from AP\n")` when the ssid is empty; it returns Station in both
cases and leaves the identity as it is. -/
theorem disconnected_log_and_directive (k : LibConsts) (hk : k.distinct) (s : ScanOutcome)
    (ssid password : String) (out : List PrintfCall) :
    (ssid ≠ "" →
      wifi_conn_mgr_event_cb k s k.WIFI_CONN_MGR_EVENT_DISCONNECTED ⟨ssid, password, out⟩
        = .ret k.WIFI_CONN_MGR_MODE_STATION
            ⟨ssid, password, out ++ [⟨"Disconnected from %s\n", [.str ssid]⟩]⟩)
    ∧ wifi_conn_mgr_event_cb k s k.WIFI_CONN_MGR_EVENT_DISCONNECTED ⟨"", password, out⟩
        = .ret k.WIFI_CONN_MGR_MODE_STATION
            ⟨"", password, out ++ [⟨"Disconnected from AP\n", []⟩]⟩
    ∧ render ⟨"Disconnected from %s\n", [.str ssid]⟩ = "Disconnected from " ++ ssid ++ "\n"
    ∧ render ⟨"Disconnected from AP\n", []⟩ = "Disconnected from AP\n"
    ∧ (⟨"Disconnected from %s\n", [.str ssid]⟩ : PrintfCall) ≠ ⟨"Disconnected from AP\n", []⟩ := by
  refine ⟨?_, ?_, render_disconnected ssid, by decide, ?_⟩
  · intro hs
    rw [event_cb_disconnected k hk s]
    simp [hs]
  · rw [event_cb_disconnected k hk s]
    simp
  · intro h
    injection h with h1 h2
    exact absurd h2 (by simp)

theorem disconnected_log_and_directive_witness :
    sampleConsts.distinct
    ∧ wifi_conn_mgr_event_cb sampleConsts failedScan
        sampleConsts.WIFI_CONN_MGR_EVENT_DISCONNECTED ⟨"", "secret", []⟩
        = .ret sampleConsts.WIFI_CONN_MGR_MODE_STATION
            ⟨"", "secret", [] ++ [⟨"Disconnected from AP\n", []⟩]⟩ :=
  ⟨by decide,
    (disconnected_log_and_directive sampleConsts (by decide) failedScan "home-net" "secret"
      []).2.1⟩

/-- C2 (the code differs): for every prior identity and every outcome of the scan, the
call of `wifi_conn_mgr_event_cb` with the event ConnectFailed runs `scan`, logs
"Scan complete.  Program exitting now..." and ends the process with `_Exit(0)`; it does
not return a directive, and the ssid and the password are the prior ones, not the
fallback pair. -/
theorem connect_failed_exits_before_fallback (k : LibConsts) (hk : k.distinct)
    (s : ScanOutcome) (hlen : s.scan_results.length = 10) (ssid password : String)
    (out : List PrintfCall) :
    wifi_conn_mgr_event_cb k s k.WIFI_CONN_MGR_EVENT_CONNECT_FAILED ⟨ssid, password, out⟩
      = .exited 0 ⟨ssid, password,
          out ++ scanOutput k s ++ [⟨"Scan complete.  Program exitting now...\n", []⟩]⟩ :=
  event_cb_connect_failed k hk s hlen ⟨ssid, password, out⟩

theorem connect_failed_exits_before_fallback_witness :
    sampleConsts.distinct ∧ failedScan.scan_results.length = 10
    ∧ wifi_conn_mgr_event_cb sampleConsts failedScan
        sampleConsts.WIFI_CONN_MGR_EVENT_CONNECT_FAILED ⟨"home-net", "secret", []⟩
      = .exited 0 ⟨"home-net", "secret",
          [] ++ scanOutput sampleConsts failedScan
            ++ [⟨"Scan complete.  Program exitting now...\n", []⟩]⟩ :=
  ⟨by decide, by decide,
    connect_failed_exits_before_fallback sampleConsts (by decide) failedScan (by decide)
      "home-net" "secret" []⟩

/-- C4 (the code differs): for every event value other than ConnectFailed, every
identity and every outcome of the scan, `wifi_conn_mgr_event_cb` returns to its caller
with the directive Station or SoftAp; for ConnectFailed it ends the process with exit
status 0 and returns no directive. -/
theorem event_cb_returns_unless_connect_failed (k : LibConsts) (hk : k.distinct)
    (s : ScanOutcome) (hlen : s.scan_results.length = 10) (w : World) :
    (∀ event, event ≠ k.WIFI_CONN_MGR_EVENT_CONNECT_FAILED →
      ∃ w1, wifi_conn_mgr_event_cb k s event w = .ret k.WIFI_CONN_MGR_MODE_STATION w1
        ∨ wifi_conn_mgr_event_cb k s event w = .ret k.WIFI_CONN_MGR_MODE_SOFT_AP w1)
    ∧ (∃ w1, wifi_conn_mgr_event_cb k s k.WIFI_CONN_MGR_EVENT_CONNECT_FAILED w = .exited 0 w1)
    ∧ (∀ mode w1,
        wifi_conn_mgr_event_cb k s k.WIFI_CONN_MGR_EVENT_CONNECT_FAILED w ≠ .ret mode w1) := by
  refine ⟨?_, ⟨_, event_cb_connect_failed k hk s hlen w⟩, ?_⟩
  · intro event he
    unfold wifi_conn_mgr_event_cb
    simp only [he, if_false]
    split_ifs
    all_goals simp only [bind_apply, Prog.bind, rtos_printf_apply, pure_apply, get_ssid]
    all_goals try split_ifs
    all_goals first
      | exact ⟨_, Or.inl rfl⟩
      | exact ⟨_, Or.inr rfl⟩
  · intro mode w1 h
    rw [event_cb_connect_failed k hk s hlen w] at h
    exact Result.noConfusion h

theorem event_cb_returns_unless_connect_failed_witness :
    sampleConsts.distinct ∧ sampleScan.scan_results.length = 10
    ∧ ∀ mode w1,
        wifi_conn_mgr_event_cb sampleConsts sampleScan
          sampleConsts.WIFI_CONN_MGR_EVENT_CONNECT_FAILED ⟨"home-net", "secret", []⟩
          ≠ .ret mode w1 :=
  ⟨by decide, by decide,
    (event_cb_returns_unless_connect_failed sampleConsts (by decide) sampleScan (by decide)
      ⟨"home-net", "secret", []⟩).2.2⟩

/-- C6 (the code differs): the configured fallback password is "xmos", not empty, and
when `wifi_conn_mgr_event_cb` handles ConnectFailed the log it produces is the output of
`scan` followed by "Scan complete.  Program exitting now..."; no call in it has the format
"\tPassword is %s\n" (nor "\tThere is no password\n"), so the password line is not
logged. -/
theorem connect_failed_logs_no_password (k : LibConsts) (hk : k.distinct) (s : ScanOutcome)
    (hlen : s.scan_results.length = 10) (ssid password : String) :
    strlen appconfSOFT_AP_PASSWORD > 0
    ∧ ∃ out1,
        wifi_conn_mgr_event_cb k s k.WIFI_CONN_MGR_EVENT_CONNECT_FAILED ⟨ssid, password, []⟩
          = .exited 0 ⟨ssid, password, out1⟩
        ∧ (⟨"\tPassword is %s\n", [.str appconfSOFT_AP_PASSWORD]⟩ : PrintfCall) ∉ out1
        ∧ ∀ p ∈ out1, p.fmt ≠ "\tPassword is %s\n" ∧ p.fmt ≠ "\tThere is no password\n" := by
  refine ⟨by decide, _, event_cb_connect_failed k hk s hlen ⟨ssid, password, []⟩, ?_, ?_⟩
  · intro hmem
    simp only [List.nil_append, List.mem_append, List.mem_singleton] at hmem
    rcases hmem with h | h
    · have hf := scanOutput_fmt k s _ h
      revert hf
      decide
    · revert h
      decide
  · intro p hmem
    simp only [List.nil_append, List.mem_append, List.mem_singleton] at hmem
    rcases hmem with h | h
    · have hf := scanOutput_fmt k s _ h
      simp only [scanFormats, List.mem_cons, List.mem_singleton, List.not_mem_nil,
        or_false] at hf
      rcases hf with h1 | h1 | h1 | h1 | h1 | h1 <;> rw [h1] <;> decide
    · subst h
      decide

theorem connect_failed_logs_no_password_witness :
    sampleConsts.distinct ∧ sampleScan.scan_results.length = 10
    ∧ ∃ out1,
        wifi_conn_mgr_event_cb sampleConsts sampleScan
            sampleConsts.WIFI_CONN_MGR_EVENT_CONNECT_FAILED ⟨"home-net", "secret", []⟩
          = .exited 0 ⟨"home-net", "secret", out1⟩
        ∧ (⟨"\tPassword is %s\n", [.str appconfSOFT_AP_PASSWORD]⟩ : PrintfCall) ∉ out1
        ∧ ∀ p ∈ out1, p.fmt ≠ "\tPassword is %s\n" ∧ p.fmt ≠ "\tThere is no password\n" :=
  ⟨by decide, by decide,
    (connect_failed_logs_no_password sampleConsts (by decide) sampleScan (by decide)
      "home-net" "secret").2⟩

/-- C7: whatever the scheduler does, the bring-up calls made from reset are an initial
part of one fixed sequence: `main_tile0` calls GPIO init, SPI master init, Wi-Fi SPI
device init and creates the startup task; the startup task calls GPIO start, SPI master
start and creates the setup task; the setup task calls `sl_wfx_host_set_hif`,
`FreeRTOS_IPInit`, `wifi_conn_mgr_start` and `vTaskDelete(NULL)`.  No init call is made
after a start call or a networking call, and there is a schedule under which the whole
sequence is made. -/
theorem bring_up_order :
    (∀ schedule : List Nat,
      bringUp (run schedule boot) <+: bringUpSequence
      ∧ (run schedule boot).Pairwise
          (fun a b => ¬ (a.2.isStartOrNet = true ∧ b.2.isInit = true)))
    ∧ (∃ schedule : List Nat, bringUp (run schedule boot) = bringUpSequence) :=
  ⟨fun schedule => ⟨bringUp_run_boot schedule, init_before_start schedule⟩,
   ⟨sampleSchedule, by decide⟩⟩

/-- C8 (the code differs): the startup task `vApplicationDaemonTaskStartup` calls
`platform_start` and `wifi_start` and then stays in its `while(1)` loop: under every
schedule it is never beyond that loop and never makes its `vTaskDelete(NULL)` call,
which follows the loop in the source. -/
theorem startup_task_never_deletes_itself :
    vApplicationDaemonTaskStartup.get? 3 = some .while_1
    ∧ vApplicationDaemonTaskStartup.get? 4 = some (.call .vTaskDelete_NULL)
    ∧ (∀ schedule : List Nat,
        (TaskFn.vApplicationDaemonTaskStartup, Call.vTaskDelete_NULL) ∉ run schedule boot
        ∧ ∀ t ∈ runThreads schedule boot, t.fn = .vApplicationDaemonTaskStartup → t.pc ≤ 3)
    ∧ (∃ schedule : List Nat,
        (⟨.vApplicationDaemonTaskStartup, 3⟩ : Thread) ∈ runThreads schedule boot) :=
  ⟨rfl, rfl,
   fun schedule => ⟨startup_no_delete schedule, fun t ht hfn => startup_pc_le schedule t ht hfn⟩,
   ⟨sampleSchedule, by decide⟩⟩

/-- C9: for every content of the 10-entry buffer, when `WIFI_Scan` succeeds `scan`
returns having printed exactly the entries at the indices 0..k-1 in increasing order,
where k is the index of the first entry whose BSSID is all zero bytes, or 10 when
there is none; entries beyond the tenth are not read (what follows the buffer in
memory does not change the result, and more fuel does not either); when `WIFI_Scan`
does not succeed `scan` prints nothing. -/
theorem scan_prints_until_no_bssid (k : LibConsts) (s : ScanOutcome)
    (hlen : s.scan_results.length = 10) (w : World) :
    (s.code = k.eWiFiSuccess →
      scan k s w = .ret ()
        { w with out := w.out ++
            printedEntries k 0 (s.scan_results.take (firstNoBssid s.scan_results)) })
    ∧ firstNoBssid s.scan_results ≤ 10
    ∧ (∀ extra : List WIFIScanResult_t,
        scan k { s with scan_results := s.scan_results ++ extra } w = scan k s w)
    ∧ (∀ fuel, 11 ≤ fuel →
        scan_loop k s.scan_results fuel 0 w = scan_loop k s.scan_results 11 0 w)
    ∧ (s.code ≠ k.eWiFiSuccess → scan k s w = .ret () w) := by
  refine ⟨?_, ?_, ?_, ?_, fun hc => scan_apply_fail k s hc w⟩
  · intro hc
    rw [scan_apply_ten k s hlen w]
    simp [scanOutput, hc]
  · rw [← hlen]
    exact List.findIdx_le_length _
  · intro extra
    have h1 := scan_apply k { s with scan_results := s.scan_results ++ extra }
      (by simp; omega) w
    have h2 := scan_apply k s (by omega) w
    have ht : (s.scan_results ++ extra).take 10 = s.scan_results.take 10 := by
      rw [List.take_append_of_le_length (by omega)]
    rw [h1, h2]
    simp only [ht]
  · intro fuel hf
    rw [scan_loop_apply k _ (by omega) fuel 0 (by omega) (by omega),
      scan_loop_apply k _ (by omega) 11 0 (by omega) (by omega)]

theorem scan_prints_until_no_bssid_witness :
    sampleScan.scan_results.length = 10
    ∧ (sampleScan.code = sampleConsts.eWiFiSuccess →
        scan sampleConsts sampleScan emptyWorld = .ret ()
          ⟨emptyWorld.ssid, emptyWorld.password,
            emptyWorld.out ++ printedEntries sampleConsts 0
              (sampleScan.scan_results.take (firstNoBssid sampleScan.scan_results))⟩) :=
  ⟨by decide,
    (scan_prints_until_no_bssid sampleConsts sampleScan (by decide) emptyWorld).1⟩

/-- C10: for every entry that `scan` prints, at index i, the output of `scan` has the
call with the format "\tBSSID: %02x:%02x:%02x:%02x:%02x:%02x\n" and the seven
arguments i, b0, ..., b5; the format has six conversion specifications, which take the
arguments i, b0, b1, b2, b3, b4, so the text printed shows i first and no b5. -/
theorem scan_bssid_line (k : LibConsts) (s : ScanOutcome)
    (hlen : s.scan_results.length = 10) (hc : s.code = k.eWiFiSuccess) (w : World)
    (i : Nat) (hi : i < firstNoBssid s.scan_results) (r : WIFIScanResult_t)
    (hr : s.scan_results.get? i = some r) :
    (∃ w1, scan k s w = .ret () w1
      ∧ (⟨"\tBSSID: %02x:%02x:%02x:%02x:%02x:%02x\n",
          [.int i, .int r.ucBSSID.b0, .int r.ucBSSID.b1, .int r.ucBSSID.b2,
           .int r.ucBSSID.b3, .int r.ucBSSID.b4, .int r.ucBSSID.b5]⟩ : PrintfCall) ∈ w1.out)
    ∧ countConversions .text ("\tBSSID: %02x:%02x:%02x:%02x:%02x:%02x\n").data = 6
    ∧ fields .text ("\tBSSID: %02x:%02x:%02x:%02x:%02x:%02x\n").data
        [.int i, .int r.ucBSSID.b0, .int r.ucBSSID.b1, .int r.ucBSSID.b2,
         .int r.ucBSSID.b3, .int r.ucBSSID.b4, .int r.ucBSSID.b5]
      = [('x', .int i), ('x', .int r.ucBSSID.b0), ('x', .int r.ucBSSID.b1),
         ('x', .int r.ucBSSID.b2), ('x', .int r.ucBSSID.b3), ('x', .int r.ucBSSID.b4)]
    ∧ render ⟨"\tBSSID: %02x:%02x:%02x:%02x:%02x:%02x\n",
          [.int i, .int r.ucBSSID.b0, .int r.ucBSSID.b1, .int r.ucBSSID.b2,
           .int r.ucBSSID.b3, .int r.ucBSSID.b4, .int r.ucBSSID.b5]⟩
      = String.mk ("\tBSSID: ".data ++ hex02 i ++ ':' :: hex02 r.ucBSSID.b0
          ++ ':' :: hex02 r.ucBSSID.b1 ++ ':' :: hex02 r.ucBSSID.b2
          ++ ':' :: hex02 r.ucBSSID.b3 ++ ':' :: hex02 r.ucBSSID.b4 ++ ['\n']) := by
  have hfmt : ("\tBSSID: " ++ HWADDR_FMT ++ "\n")
      = "\tBSSID: %02x:%02x:%02x:%02x:%02x:%02x\n" := by decide
  have hd : ("\tBSSID: %02x:%02x:%02x:%02x:%02x:%02x\n").data
      = ['\t', 'B', 'S', 'S', 'I', 'D', ':', ' ', '%', '0', '2', 'x', ':', '%', '0', '2', 'x',
         ':', '%', '0', '2', 'x', ':', '%', '0', '2', 'x', ':', '%', '0', '2', 'x', ':',
         '%', '0', '2', 'x', '\n'] := by decide
  refine ⟨⟨_, scan_apply_ten k s hlen w, ?_⟩, by decide, ?_, ?_⟩
  · simp only [scanOutput, hc, if_true]
    apply List.mem_append_right
    apply scan_calls_mem k s.scan_results _ i hi r hr
    simp [scan_calls, HWADDR_ARG, hfmt]
  · rw [hd]
    simp [fields]
  · have h := render_bssid i r.ucBSSID
    rw [hfmt] at h
    exact h

theorem scan_bssid_line_witness :
    sampleScan.scan_results.length = 10 ∧ sampleScan.code = sampleConsts.eWiFiSuccess
    ∧ 0 < firstNoBssid sampleScan.scan_results
    ∧ sampleScan.scan_results.get? 0 = some sampleEntry
    ∧ render ⟨"\tBSSID: %02x:%02x:%02x:%02x:%02x:%02x\n",
          [.int (0 : Nat), .int sampleEntry.ucBSSID.b0, .int sampleEntry.ucBSSID.b1,
           .int sampleEntry.ucBSSID.b2, .int sampleEntry.ucBSSID.b3,
           .int sampleEntry.ucBSSID.b4, .int sampleEntry.ucBSSID.b5]⟩
      = String.mk ("\tBSSID: ".data ++ hex02 0 ++ ':' :: hex02 sampleEntry.ucBSSID.b0
          ++ ':' :: hex02 sampleEntry.ucBSSID.b1 ++ ':' :: hex02 sampleEntry.ucBSSID.b2
          ++ ':' :: hex02 sampleEntry.ucBSSID.b3 ++ ':' :: hex02 sampleEntry.ucBSSID.b4
          ++ ['\n']) :=
  ⟨by decide, by decide, by decide, by decide,
    (scan_bssid_line sampleConsts sampleScan (by decide) (by decide) ⟨"", "", []⟩ 0
      (by decide) sampleEntry (by decide)).2.2.2⟩

end WifiTest
